import Mathlib

/-!
Shallow embedding of the BarCoin hardware event pipeline:
the protocol codec (`parse_serial_data`, `validate_hardware_message` from
`src/bar_coin/utils/helpers.py`), the orchestrator (`CoinCounter` from
`src/bar_coin/hardware/coin_counter.py`), and the two transports
(`SerialHandler` from `src/bar_coin/hardware/serial_handler.py`,
`MockHardware` from `src/bar_coin/hardware/mock_hardware.py`).

Machine conventions:
* Python floats that carry coin denominations are modelled as exact
  rationals (`ℚ`); the code only ever compares them for equality against
  the fixed literal set `PHILIPPINE_COINS`.
* A JSON value that may sit in a message field is `PyVal`: either a value
  on which Python `float(...)` succeeds (constructor `num`, carrying the
  coerced rational) or one on which `float(...)` raises
  `ValueError`/`TypeError` (constructor `nonNum`).
* A raw line handed to the codec is `RawLine`: either text on which
  `json.loads` raises `JSONDecodeError` (`malformed`) or a decoded JSON
  dict (`jsonDict`).
* Wall-clock time is threaded explicitly: `ℚ` seconds for
  `datetime.now()` arithmetic, `String` for `datetime.now().isoformat()`.
* Python exceptions are explicit: fallible primitives return
  `Except String _`; a `try/except` in the source becomes a `match` on
  that result, and a call *not* wrapped in `try` propagates the error
  through `Except` bind.
-/

namespace BarCoin

/-- A Python value in a message field, as seen by `float(...)` coercion:
`num q` is any value (number or numeric string) that `float` maps to the
rational `q`; `nonNum` is any value on which `float` raises. -/
inductive PyVal where
  | num (q : ℚ)
  | nonNum
deriving DecidableEq

/-- Python `float(v)`: returns the coerced value or fails
(`ValueError`/`TypeError`). -/
def pyFloat : PyVal → Option ℚ
  | PyVal.num q => some q
  | PyVal.nonNum => none

/-- A decoded JSON dict message. Only the fields `type`, `denomination`
and `timestamp` are ever inspected by the codec and the orchestrator;
any other entries of the dict are carried opaquely in `rest`. A `none`
field means the key is absent from the dict. -/
structure Msg where
  type? : Option String
  denomination? : Option PyVal
  timestamp? : Option String
  rest : List (String × PyVal) := []
deriving DecidableEq

/-- A raw line from the transport: `malformed` when `json.loads` raises
`JSONDecodeError`; `jsonDict m` when it yields the dict `m`. -/
inductive RawLine where
  | malformed
  | jsonDict (m : Msg)
deriving DecidableEq

/-- The keys of the `PHILIPPINE_COINS` dict in
`src/bar_coin/config/settings.py` (insertion order):
0.01, 0.05, 0.10, 0.25, 1.00, 5.00, 10.00, 20.00, written as exact
rationals in lowest terms so that membership is kernel-computable
(`PHILIPPINE_COINS_are_the_source_decimals` checks the decimal
values). -/
def PHILIPPINE_COINS : List ℚ :=
  [⟨1, 100, by decide, by decide⟩, ⟨1, 20, by decide, by decide⟩,
   ⟨1, 10, by decide, by decide⟩, ⟨1, 4, by decide, by decide⟩,
   1, 5, 10, 20]

/-- `parse_serial_data` from `src/bar_coin/utils/helpers.py` (lines
180-204): JSON-decode the line, require the fields `type`,
`denomination`, `timestamp`, coerce the denomination with `float` and
require membership in `PHILIPPINE_COINS`; every failure path returns
`None` (the exceptions are caught inside the function). On success it
returns the parsed dict itself. -/
def parse_serial_data : RawLine → Option Msg
  | RawLine.malformed => none
  | RawLine.jsonDict m =>
    if m.type?.isNone ∨ m.denomination?.isNone ∨ m.timestamp?.isNone then
      none
    else
      match m.denomination? with
      | none => none
      | some v =>
        match pyFloat v with
        | none => none
        | some q => if q ∈ PHILIPPINE_COINS then some m else none

/-- `validate_hardware_message` from `src/bar_coin/utils/helpers.py`
(lines 206-224): the message must have a `type` equal to `coin` or
`coin_detected`, a `denomination` field whose `float` coercion succeeds,
and the coerced denomination must be in `PHILIPPINE_COINS`. -/
def validate_hardware_message (m : Msg) : Bool :=
  match m.type? with
  | none => false
  | some t =>
    if t ≠ "coin" ∧ t ≠ "coin_detected" then false
    else
      match m.denomination? with
      | none => false
      | some v =>
        match pyFloat v with
        | none => false
        | some q => decide (q ∈ PHILIPPINE_COINS)

/-! ## Transports -/

/-- The live pyserial connection object, with fault flags saying which of
its primitive operations raise (a "faulted" transport has some flag
set). -/
structure SerialConn where
  is_open : Bool
  write_raises : Bool
  close_raises : Bool
deriving DecidableEq

/-- Primitive `serial.write`/`flush` on the connection: raises
`SerialException` when the port is faulted, otherwise returns the byte
count written. -/
def rawWrite (c : SerialConn) (data : String) : Except String Nat :=
  if c.write_raises then Except.error "SerialException" else Except.ok data.length

/-- Primitive `serial.close` on the connection: raises when faulted. -/
def rawClose (c : SerialConn) : Except String Unit :=
  if c.close_raises then Except.error "SerialException" else Except.ok ()

/-- State of `SerialHandler` from
`src/bar_coin/hardware/serial_handler.py` (the fields the modelled
operations touch). -/
structure SerialHandler where
  serial_conn : Option SerialConn
  is_connected : Bool
  last_error : Option String
  bytes_sent : Nat
  err_count : Nat
deriving DecidableEq

/-- `SerialHandler.write_data` (lines 103-128): returns `False` when not
connected; otherwise writes, catching `SerialException` and any other
exception internally (error counter and `last_error` updated, `False`
returned). Never raises. -/
def SerialHandler.write_data (h : SerialHandler) (data : String) :
    Bool × SerialHandler :=
  if h.is_connected = false then (false, h)
  else
    match h.serial_conn with
    | none => (false, h)
    | some c =>
      match rawWrite c data with
      | Except.ok n => (true, { h with bytes_sent := h.bytes_sent + n })
      | Except.error e =>
        (false, { h with err_count := h.err_count + 1, last_error := some e })

/-- `SerialHandler.send_command` (lines 130-134): append a newline if
missing, then `write_data`. -/
def SerialHandler.send_command (h : SerialHandler) (command : String) :
    Bool × SerialHandler :=
  let cmd := if command.endsWith "\n" then command else command ++ "\n"
  h.write_data cmd

/-- `SerialHandler.disconnect` (lines 64-74): if a connection object is
present and open, `close()` it inside `try/except` (a close failure is
logged and swallowed); then unconditionally clear the connected flag and
drop the connection object. Never raises. -/
def SerialHandler.disconnect (h : SerialHandler) : SerialHandler :=
  let h1 :=
    match h.serial_conn with
    | some c =>
      if c.is_open then
        match rawClose c with
        | Except.ok _ => h
        | Except.error _ => h
      else h
    | none => h
  { h1 with is_connected := false, serial_conn := none }

/-- `SerialHandler.emergency_stop` (lines 184-195): inside
`try/except: pass`, send `EMERGENCY_STOP` if the port is open; in the
`finally` block, `disconnect`. Never raises. -/
def SerialHandler.emergency_stop (h : SerialHandler) : SerialHandler :=
  let body : SerialHandler :=
    match h.serial_conn with
    | some c => if c.is_open then (h.send_command "EMERGENCY_STOP").2 else h
    | none => h
  body.disconnect

/-- State of `MockHardware` from
`src/bar_coin/hardware/mock_hardware.py`. Its internal queue holds the
`json.dumps` of message dicts; since `json.loads ∘ json.dumps` is the
identity on these dicts we store the dicts themselves. -/
structure MockHardware where
  is_connected : Bool
  is_running : Bool
  data_queue : List Msg
  stop_event : Bool
  coins_simulated : Nat
  errors_simulated : Nat
  jams_simulated : Nat
deriving DecidableEq

/-- The `self.denominations` list of `MockHardware.__init__`:
`list(PHILIPPINE_COINS.keys())`. -/
def MockHardware.denominations : List ℚ := PHILIPPINE_COINS

/-- The coin message built by `MockHardware.simulate_batch` (lines
260-266) for denomination `d` at ISO timestamp `ts`: fixed
`sensor_id = 1`, `confidence = 0.95`. -/
def batchCoinMsg (d : ℚ) (ts : String) : Msg :=
  { type? := some "coin_detected"
    denomination? := some (PyVal.num d)
    timestamp? := some ts
    rest := [("sensor_id", PyVal.num 1), ("confidence", PyVal.num 0.95)] }

/-- One pass of the inner `for denomination in denominations` loop of
`MockHardware.simulate_batch`: enqueue a coin message and bump
`coins_simulated` for each denomination in the supported list, skip the
rest. -/
def MockHardware.batch_pass (m : MockHardware) (denoms : List ℚ)
    (ts : String) : MockHardware :=
  denoms.foldl
    (fun acc d =>
      if d ∈ MockHardware.denominations then
        { acc with
          data_queue := acc.data_queue ++ [batchCoinMsg d ts]
          coins_simulated := acc.coins_simulated + 1 }
      else acc)
    m

/-- `MockHardware.simulate_batch` (lines 255-269): `count` repetitions of
the denomination pass. -/
def MockHardware.simulate_batch (m : MockHardware) (denoms : List ℚ)
    (count : Nat) (ts : String) : MockHardware :=
  (List.range count).foldl (fun acc _ => acc.batch_pass denoms ts) m

/-- `MockHardware.read_data` (lines 166-174): `None` when not connected;
otherwise `get_nowait` on the queue, with the `Empty` exception caught
and turned into `None`. -/
def MockHardware.read_data (m : MockHardware) : Option Msg × MockHardware :=
  if m.is_connected = false then (none, m)
  else
    match m.data_queue with
    | [] => (none, m)
    | x :: rest => (some x, { m with data_queue := rest })

/-- `MockHardware.stop_simulation` (lines 77-82): set the stop event and
join the simulation thread (the join has no effect on modelled state). -/
def MockHardware.stop_simulation (m : MockHardware) : MockHardware :=
  { m with stop_event := true }

/-- `MockHardware.disconnect` (lines 56-65): clear both flags, set the
stop event, join the thread. Never raises. -/
def MockHardware.disconnect (m : MockHardware) : MockHardware :=
  { m with is_connected := false, is_running := false, stop_event := true }

/-- `MockHardware.emergency_stop` (lines 241-245): `stop_simulation` then
`disconnect`. Never raises. -/
def MockHardware.emergency_stop (m : MockHardware) : MockHardware :=
  m.stop_simulation.disconnect

/-- The polymorphic transport owned by the orchestrator: a
`SerialHandler` in hardware mode, a `MockHardware` in mock mode. -/
inductive Hardware where
  | serial (h : SerialHandler)
  | mock (m : MockHardware)
deriving DecidableEq

/-- Transport `emergency_stop`, dispatched by variant. Typed in `Except`
because a Python callee may raise; both variants in fact catch all their
internal faults and return normally. -/
def Hardware.emergency_stop : Hardware → Except String Hardware
  | Hardware.serial h => Except.ok (Hardware.serial h.emergency_stop)
  | Hardware.mock m => Except.ok (Hardware.mock m.emergency_stop)

/-- Transport `disconnect`, dispatched by variant; same `Except` typing. -/
def Hardware.disconnect : Hardware → Except String Hardware
  | Hardware.serial h => Except.ok (Hardware.serial h.disconnect)
  | Hardware.mock m => Except.ok (Hardware.mock m.disconnect)

/-! ## Orchestrator (`CoinCounter`) -/

/-- The `self.stats` dict of `CoinCounter.__init__` (lines 45-52).
`session_start_time` is a wall-clock instant in seconds (`datetime`),
`last_coin_time` an ISO timestamp string taken from a message. -/
structure Stats where
  total_coins_processed : Nat
  session_start_time : Option ℚ
  last_coin_time : Option String
  processing_speed : ℚ
  errors : Nat
  warnings : Nat
deriving DecidableEq

/-- A registered callback: an identity plus whether invoking it raises.
The payload it receives is recorded by the dispatch function. -/
structure Callback where
  id : Nat
  raises : Bool
deriving DecidableEq

/-- The dict passed to each callback by
`CoinCounter._handle_coin_detection` (lines 163-170). -/
structure Payload where
  type : String
  denomination : ℚ
  timestamp : String
  session_id : Option String
deriving DecidableEq

/-- Running a single callback: raises exactly when the callback is
faulty. -/
def invokeCallback (c : Callback) : Except String Unit :=
  if c.raises then Except.error "callback exception" else Except.ok ()

/-- The `for callback in self.callbacks` loop of
`_handle_coin_detection`: each callback is invoked once, in list order;
an exception from a callback is caught (`try/except` per iteration,
lines 164-172) and the loop continues. Returns the invocation log:
which callback ids were called, with which payload, in order. -/
def notifyCallbacks : List Callback → Payload → List (Nat × Payload)
  | [], _ => []
  | c :: rest, p =>
    match invokeCallback c with
    | Except.ok _ => (c.id, p) :: notifyCallbacks rest p
    | Except.error _ => (c.id, p) :: notifyCallbacks rest p

/-- State of `CoinCounter` from `src/bar_coin/hardware/coin_counter.py`.
The outbound `data_queue` is the FIFO drained by the UI. -/
structure CoinCounter where
  is_running : Bool
  is_connected : Bool
  data_queue : List Msg
  callbacks : List Callback
  current_session_id : Option String
  stats : Stats
  hardware : Hardware
deriving DecidableEq

/-- `CoinCounter._handle_coin_detection` (lines 150-172): coerce the
denomination, take the message timestamp (falling back to the current
time, `data.get` with default), bump `total_coins_processed`, stamp
`last_coin_time`, then notify every callback with the
coin-detected payload. Returns the new state and the invocation log.
(The `float` coercion cannot fail at this call site: the caller has
already validated the message; the `getD` defaults mirror that dead
branch.) -/
def CoinCounter.handle_coin_detection (st : CoinCounter) (m : Msg)
    (nowIso : String) : CoinCounter × List (Nat × Payload) :=
  let denomination : ℚ := (pyFloat (m.denomination?.getD PyVal.nonNum)).getD 0
  let timestamp := m.timestamp?.getD nowIso
  let st1 := { st with
    stats := { st.stats with
      total_coins_processed := st.stats.total_coins_processed + 1
      last_coin_time := some timestamp } }
  let payload : Payload :=
    { type := "coin_detected", denomination := denomination,
      timestamp := timestamp, session_id := st1.current_session_id }
  (st1, notifyCallbacks st1.callbacks payload)

/-- `CoinCounter._process_data` (lines 123-148): parse the line — on
`None`, log a warning, bump `warnings`, return; validate — on failure,
log a warning, bump `warnings`, return; if the type is `coin_detected`,
handle the detection (callbacks included); finally enqueue the parsed
message on the outbound queue. Returns the new state and the callback
invocation log. (The enclosing `try/except` that bumps `errors` guards
only unexpected exceptions; every modelled sub-step is total, so that
branch is unreachable here.) -/
def CoinCounter.process_data (st : CoinCounter) (line : RawLine)
    (nowIso : String) : CoinCounter × List (Nat × Payload) :=
  match parse_serial_data line with
  | none =>
    ({ st with stats := { st.stats with warnings := st.stats.warnings + 1 } }, [])
  | some m =>
    if validate_hardware_message m = false then
      ({ st with stats := { st.stats with warnings := st.stats.warnings + 1 } }, [])
    else
      let step :=
        if m.type? = some "coin_detected" then st.handle_coin_detection m nowIso
        else (st, [])
      ({ step.1 with data_queue := step.1.data_queue ++ [m] }, step.2)

/-- The read loop (`_read_data_loop`, lines 100-111) processing a batch
of raw lines in arrival order; only the state is kept. -/
def CoinCounter.process_lines (st : CoinCounter) (lines : List RawLine)
    (nowIso : String) : CoinCounter :=
  lines.foldl (fun acc line => (acc.process_data line nowIso).1) st

/-- `CoinCounter._update_processing_speed` (lines 174-181): when a
session start time is set and at least one coin was processed, and the
elapsed minutes since the start are positive, recompute
`processing_speed` as coins per elapsed minute; otherwise leave it. -/
def CoinCounter.update_processing_speed (st : CoinCounter) (now : ℚ) :
    CoinCounter :=
  match st.stats.session_start_time with
  | none => st
  | some t0 =>
    if st.stats.total_coins_processed > 0 then
      let elapsed_minutes : ℚ := (now - t0) / 60
      if 0 < elapsed_minutes then
        { st with stats := { st.stats with
            processing_speed :=
              (st.stats.total_coins_processed : ℚ) / elapsed_minutes } }
      else st
    else st

/-- `CoinCounter.start_session` (lines 183-195): refuse when not
connected (no mutation); otherwise store the session id, stamp the start
time, zero the coin counter and the speed. -/
def CoinCounter.start_session (st : CoinCounter) (session_id : String)
    (now : ℚ) : Bool × CoinCounter :=
  if st.is_connected = false then (false, st)
  else
    (true, { st with
      current_session_id := some session_id
      stats := { st.stats with
        session_start_time := some now
        total_coins_processed := 0
        processing_speed := 0 } })

/-- `CoinCounter.reset_counters` (lines 250-260): zero every statistic
and drain the outbound queue. -/
def CoinCounter.reset_counters (st : CoinCounter) : CoinCounter :=
  { st with
    stats :=
      { total_coins_processed := 0, session_start_time := none,
        last_coin_time := none, processing_speed := 0,
        errors := 0, warnings := 0 }
    data_queue := [] }

/-- `CoinCounter.disconnect` (lines 75-88): clear both flags, set the
stop event, join both threads with bounded timeouts (no modelled
effect), then `hardware.disconnect()` — an uncaught callee, hence the
`Except` bind. -/
def CoinCounter.disconnect (st : CoinCounter) : Except String CoinCounter := do
  let st1 := { st with is_running := false, is_connected := false }
  let hw ← st1.hardware.disconnect
  Except.ok { st1 with hardware := hw }

/-- `CoinCounter.emergency_stop` (lines 262-267): clear the running
flag, forward the halt to the transport, then a full `disconnect`.
Neither callee is wrapped in `try`, so an exception from either would
propagate to the caller through the binds. -/
def CoinCounter.emergency_stop (st : CoinCounter) : Except String CoinCounter := do
  let st1 := { st with is_running := false }
  let hw ← st1.hardware.emergency_stop
  CoinCounter.disconnect { st1 with hardware := hw }

/-- A raw line that the whole pipeline accepts as a coin detection:
parse succeeds, validation passes and the type is `coin_detected`. -/
def validCoinLine (line : RawLine) : Bool :=
  match parse_serial_data line with
  | none => false
  | some m => validate_hardware_message m && (m.type? == some "coin_detected")

/-- A concrete freshly-connected orchestrator in mock mode with zeroed
statistics, used to evaluate the pipeline at specific inputs. -/
def initCounter : CoinCounter :=
  { is_running := true
    is_connected := true
    data_queue := []
    callbacks := []
    current_session_id := none
    stats :=
      { total_coins_processed := 0, session_start_time := none,
        last_coin_time := none, processing_speed := 0,
        errors := 0, warnings := 0 }
    hardware := Hardware.mock
      { is_connected := true, is_running := true, data_queue := [],
        stop_event := false, coins_simulated := 0, errors_simulated := 0,
        jams_simulated := 0 } }

/-! ## Concrete inputs for evaluation -/

/-- A well-formed coin-detected message with the supported denomination
1.00. -/
def coinMsg1 : Msg :=
  { type? := some "coin_detected", denomination? := some (PyVal.num 1),
    timestamp? := some "2024-01-01T00:00:00" }

/-- The raw line carrying `coinMsg1`. -/
def coinLine1 : RawLine := RawLine.jsonDict coinMsg1

/-- The spec scenario line
`{"type":"coin_detected","denomination":99.00,"timestamp":"2024-01-01T00:00:00"}`:
well-formed, but 99.00 is not a supported denomination. -/
def line99 : RawLine :=
  RawLine.jsonDict
    { type? := some "coin_detected", denomination? := some (PyVal.num 99),
      timestamp? := some "2024-01-01T00:00:00" }

/-- A well-formed `error`-kind protocol message (shape produced by
`MockHardware._simulate_error`): `type`, `timestamp`, `error_type`,
`message`, `severity` — no `denomination` field. -/
def errMsg : Msg :=
  { type? := some "error", denomination? := none,
    timestamp? := some "2024-01-01T00:00:00",
    rest := [("error_type", PyVal.nonNum), ("message", PyVal.nonNum),
             ("severity", PyVal.nonNum)] }

/-- The raw line carrying `errMsg`. -/
def errLine : RawLine := RawLine.jsonDict errMsg

/-- `initCounter` with three registered callbacks, the middle one
raising on invocation. -/
def cbCounter : CoinCounter :=
  { initCounter with callbacks := [⟨0, false⟩, ⟨1, true⟩, ⟨2, false⟩] }

/-- A disconnected orchestrator. -/
def discCounter : CoinCounter := { initCounter with is_connected := false }

/-- A connected simulated transport with an empty internal queue and
zeroed counters. -/
def mock0 : MockHardware :=
  { is_connected := true, is_running := true, data_queue := [],
    stop_event := false, coins_simulated := 0, errors_simulated := 0,
    jams_simulated := 0 }

/-! ## Helper lemmas -/

/-- The denomination constants are exactly the decimal literals of the
source configuration. -/
theorem PHILIPPINE_COINS_are_the_source_decimals :
    PHILIPPINE_COINS = [0.01, 0.05, 0.10, 0.25, 1.00, 5.00, 10.00, 20.00] := by
  simp only [PHILIPPINE_COINS, Rat.mk'_eq_divInt, Rat.divInt_eq_div]
  norm_num

/-- Dispatch invokes every callback exactly once, in registration order,
whether or not individual callbacks raise. -/
theorem notifyCallbacks_eq_map (cbs : List Callback) (p : Payload) :
    notifyCallbacks cbs p = cbs.map (fun c => (c.id, p)) := by
  induction cbs with
  | nil => rfl
  | cons c rest ih =>
    cases hc : invokeCallback c with
    | ok u => simp only [notifyCallbacks, hc, List.map_cons, ih]
    | error e => simp only [notifyCallbacks, hc, List.map_cons, ih]

/-- What passing the validator guarantees about a message. -/
theorem validate_hardware_message_spec (m : Msg)
    (h : validate_hardware_message m = true) :
    (m.type? = some "coin" ∨ m.type? = some "coin_detected") ∧
    ∃ q, pyFloat (m.denomination?.getD PyVal.nonNum) = some q ∧
      q ∈ PHILIPPINE_COINS := by
  unfold validate_hardware_message at h
  split at h
  next => exact absurd h (by simp)
  next t ht =>
    split at h
    next => exact absurd h (by simp)
    next h1 =>
      split at h
      next => exact absurd h (by simp)
      next v hd =>
        split at h
        next => exact absurd h (by simp)
        next q hq =>
          refine ⟨?_, q, ?_, of_decide_eq_true h⟩
          · rcases Decidable.not_and_iff_or_not.mp h1 with h2 | h2
            · exact Or.inl (by rw [ht, not_not.mp h2])
            · exact Or.inr (by rw [ht, not_not.mp h2])
          · simp [hd, hq]

/-- `_handle_coin_detection` only bumps the coin counter and stamps the
last-coin time: queue, speed, session start and the two fault counters
are untouched. -/
theorem handle_coin_detection_effects (st : CoinCounter) (m : Msg)
    (nowIso : String) :
    (st.handle_coin_detection m nowIso).1.stats.total_coins_processed
        = st.stats.total_coins_processed + 1 ∧
    (st.handle_coin_detection m nowIso).1.stats.processing_speed
        = st.stats.processing_speed ∧
    (st.handle_coin_detection m nowIso).1.stats.session_start_time
        = st.stats.session_start_time ∧
    (st.handle_coin_detection m nowIso).1.data_queue = st.data_queue := by
  simp [CoinCounter.handle_coin_detection]

/-- Processing one accepted coin line adds exactly one to the coin
counter and preserves speed and session start. -/
theorem process_data_valid_coin (st : CoinCounter) (line : RawLine)
    (nowIso : String) (h : validCoinLine line = true) :
    (st.process_data line nowIso).1.stats.total_coins_processed
        = st.stats.total_coins_processed + 1 ∧
    (st.process_data line nowIso).1.stats.processing_speed
        = st.stats.processing_speed ∧
    (st.process_data line nowIso).1.stats.session_start_time
        = st.stats.session_start_time := by
  unfold validCoinLine at h
  cases hp : parse_serial_data line with
  | none => rw [hp] at h; exact absurd h (by simp)
  | some m =>
    rw [hp] at h
    have hv : validate_hardware_message m = true := (Bool.and_eq_true_iff.mp h).1
    have ht : m.type? = some "coin_detected" :=
      eq_of_beq (Bool.and_eq_true_iff.mp h).2
    simp [CoinCounter.process_data, hp, hv, ht,
      CoinCounter.handle_coin_detection]

/-- Draining a batch of accepted coin lines adds its length to the coin
counter and preserves speed and session start. -/
theorem process_lines_valid_total (lines : List RawLine) (st : CoinCounter)
    (nowIso : String) (h : ∀ l ∈ lines, validCoinLine l = true) :
    (st.process_lines lines nowIso).stats.total_coins_processed
        = st.stats.total_coins_processed + lines.length ∧
    (st.process_lines lines nowIso).stats.processing_speed
        = st.stats.processing_speed ∧
    (st.process_lines lines nowIso).stats.session_start_time
        = st.stats.session_start_time := by
  induction lines generalizing st with
  | nil => simp [CoinCounter.process_lines]
  | cons l rest ih =>
    have hl : validCoinLine l = true := h l (by simp)
    have hrest : ∀ x ∈ rest, validCoinLine x = true :=
      fun x hx => h x (by simp [hx])
    obtain ⟨h1, h2, h3⟩ := process_data_valid_coin st l nowIso hl
    obtain ⟨g1, g2, g3⟩ := ih (st.process_data l nowIso).1 hrest
    have hstep : st.process_lines (l :: rest) nowIso
        = ((st.process_data l nowIso).1).process_lines rest nowIso := rfl
    rw [hstep]
    refine ⟨?_, by rw [g2, h2], by rw [g3, h3]⟩
    rw [g1, h1]; simp; omega

/-- Recomputing the processing speed never makes it negative. -/
theorem update_processing_speed_nonneg (st : CoinCounter) (now : ℚ)
    (h : 0 ≤ st.stats.processing_speed) :
    0 ≤ (st.update_processing_speed now).stats.processing_speed := by
  unfold CoinCounter.update_processing_speed
  split
  next => exact h
  next t0 h0 =>
    split
    next h1 =>
      dsimp only
      split
      next h2 =>
        simpa using div_nonneg (Nat.cast_nonneg st.stats.total_coins_processed)
          (le_of_lt h2)
      next => exact h
    next => exact h

/-! ## Claim theorems -/

/-- Claim C1, amended (the claim as stated is refuted by
`c1_counterexample`): in `_process_data`, BOTH a structural decode
failure and a semantic validation failure increment the `warnings`
counter and continue — they are counted in the SAME counter, and the
`errors` counter is untouched on either path (it is reserved for
unexpected exceptions inside the loop). Nothing is enqueued and no
callback runs on either failure. -/
theorem c1_both_failure_kinds_count_warnings
    (st : CoinCounter) (line : RawLine) (nowIso : String)
    (h : parse_serial_data line = none ∨
      ∃ m, parse_serial_data line = some m ∧
        validate_hardware_message m = false) :
    (st.process_data line nowIso).1.stats.warnings = st.stats.warnings + 1 ∧
    (st.process_data line nowIso).1.stats.errors = st.stats.errors ∧
    (st.process_data line nowIso).1.data_queue = st.data_queue ∧
    (st.process_data line nowIso).2 = [] := by
  rcases h with hp | ⟨m, hp, hv⟩
  · simp [CoinCounter.process_data, hp]
  · simp [CoinCounter.process_data, hp, hv]

/-- Witness for `c1_both_failure_kinds_count_warnings` at a concrete
structurally malformed line. -/
theorem c1_both_failure_kinds_count_warnings_witness :
    (parse_serial_data RawLine.malformed = none ∨
      ∃ m, parse_serial_data RawLine.malformed = some m ∧
        validate_hardware_message m = false) ∧
    (initCounter.process_data RawLine.malformed "t").1.stats.warnings
        = initCounter.stats.warnings + 1 :=
  ⟨Or.inl rfl,
    (c1_both_failure_kinds_count_warnings initCounter RawLine.malformed "t"
      (Or.inl rfl)).1⟩

/-- Claim C1 as stated is false: on a structurally malformed line the
read loop increments `warnings` (0 → 1), while `errors` stays 0 — the
claim demands `errors` be incremented and the two failure kinds be
counted in distinct counters. -/
theorem c1_counterexample :
    (initCounter.process_data RawLine.malformed "t").1.stats.errors = 0 ∧
    (initCounter.process_data RawLine.malformed "t").1.stats.warnings = 1 :=
  ⟨rfl, rfl⟩

/-- Claim C2, amended (the claim as stated is refuted by
`c2_counterexample`): a parsed event is pushed onto the outbound queue
exactly when it survives both codec gates — i.e. its type is `coin` or
`coin_detected` and its denomination is supported; well-formed lines of
the other event kinds (`error`, `jam_detected`, `status_response`) are
rejected by the codec and never enqueued. -/
theorem c2_validated_events_enqueued
    (st : CoinCounter) (line : RawLine) (m : Msg) (nowIso : String)
    (hp : parse_serial_data line = some m)
    (hv : validate_hardware_message m = true) :
    (st.process_data line nowIso).1.data_queue = st.data_queue ++ [m] := by
  by_cases ht : m.type? = some "coin_detected"
  · simp [CoinCounter.process_data, hp, hv, ht,
      CoinCounter.handle_coin_detection]
  · simp [CoinCounter.process_data, hp, hv, ht]

/-- Witness for `c2_validated_events_enqueued` at a concrete accepted
coin line. -/
theorem c2_validated_events_enqueued_witness :
    parse_serial_data coinLine1 = some coinMsg1 ∧
    validate_hardware_message coinMsg1 = true ∧
    (initCounter.process_data coinLine1 "t").1.data_queue
        = initCounter.data_queue ++ [coinMsg1] :=
  ⟨by decide, by decide,
    c2_validated_events_enqueued initCounter coinLine1 coinMsg1 "t"
      (by decide) (by decide)⟩

/-- Claim C2 as stated is false: a well-formed `error`-kind protocol
line is NOT pushed onto the outbound queue — the parser rejects it (no
`denomination` field), it is counted as a warning and the queue stays
empty. -/
theorem c2_counterexample :
    parse_serial_data errLine = none ∧
    (initCounter.process_data errLine "t").1.data_queue = [] ∧
    (initCounter.process_data errLine "t").1.stats.warnings = 1 :=
  ⟨rfl, rfl, rfl⟩

/-- Claim C3: after `start_session` on a connected orchestrator, a batch
of N accepted coin lines leaves `total_coins_processed = N`; the session
start time is the stamped one, and the stats-loop recomputation of
`processing_speed` yields a non-negative rational (finiteness is
inherent: the guard `elapsed_minutes > 0` protects the division, so the
speed is a well-defined rational number). -/
theorem c3_session_total_equals_n_and_speed_nonneg
    (st0 : CoinCounter) (sid : String) (t0 : ℚ) (lines : List RawLine)
    (nowIso : String) (now : ℚ)
    (hc : st0.is_connected = true)
    (hv : ∀ l ∈ lines, validCoinLine l = true)
    (hn : 0 < lines.length) :
    (((st0.start_session sid t0).2).process_lines lines nowIso).stats.total_coins_processed
        = lines.length ∧
    (((st0.start_session sid t0).2).process_lines lines nowIso).stats.session_start_time
        = some t0 ∧
    0 ≤ ((((st0.start_session sid t0).2).process_lines lines
          nowIso).update_processing_speed now).stats.processing_speed := by
  have hs1 : (st0.start_session sid t0).2.stats.total_coins_processed = 0 := by
    simp [CoinCounter.start_session, hc]
  have hs2 : (st0.start_session sid t0).2.stats.processing_speed = 0 := by
    simp [CoinCounter.start_session, hc]
  have hs3 : (st0.start_session sid t0).2.stats.session_start_time = some t0 := by
    simp [CoinCounter.start_session, hc]
  obtain ⟨g1, g2, g3⟩ :=
    process_lines_valid_total lines (st0.start_session sid t0).2 nowIso hv
  refine ⟨by rw [g1, hs1]; omega, by rw [g3, hs3], ?_⟩
  exact update_processing_speed_nonneg _ now (by rw [g2, hs2])

/-- Witness for `c3_session_total_equals_n_and_speed_nonneg` with one
accepted coin line. -/
theorem c3_session_total_equals_n_and_speed_nonneg_witness :
    initCounter.is_connected = true ∧
    (∀ l ∈ [coinLine1], validCoinLine l = true) ∧
    0 < ([coinLine1] : List RawLine).length ∧
    (((initCounter.start_session "s" 0).2).process_lines [coinLine1]
        "t").stats.total_coins_processed = ([coinLine1] : List RawLine).length :=
  ⟨rfl, by decide, by decide,
    (c3_session_total_equals_n_and_speed_nonneg initCounter "s" 0 [coinLine1]
      "t" 60 rfl (by decide) (by decide)).1⟩

/-- Claim C4: the spec scenario line with unsupported denomination 99.00
is rejected by `parse` (returns none); processing it increments
`warnings` by exactly 1, leaves `total_coins_processed` and the outbound
queue unchanged, and invokes no callback — from any prior orchestrator
state. -/
theorem c4_unsupported_denomination_rejected
    (st : CoinCounter) (nowIso : String) :
    parse_serial_data line99 = none ∧
    (st.process_data line99 nowIso).1.stats.warnings = st.stats.warnings + 1 ∧
    (st.process_data line99 nowIso).1.stats.total_coins_processed
        = st.stats.total_coins_processed ∧
    (st.process_data line99 nowIso).1.data_queue = st.data_queue ∧
    (st.process_data line99 nowIso).2 = [] := by
  have hp : parse_serial_data line99 = none := by decide
  refine ⟨hp, ?_, ?_, ?_, ?_⟩ <;> simp [CoinCounter.process_data, hp]

/-- Claim C5: `emergency_stop` returns normally (no exception reaches
the caller) from every prior orchestrator state — including every
faulted transport configuration — and the resulting state has both the
connected flag and the running flag cleared. -/
theorem c5_emergency_stop_never_raises_and_disconnects (st : CoinCounter) :
    ∃ st2, st.emergency_stop = Except.ok st2 ∧
      st2.is_connected = false ∧ st2.is_running = false := by
  rcases st with ⟨run, conn, q, cbs, sid, stats, hw⟩
  cases hw with
  | serial h => exact ⟨_, rfl, rfl, rfl⟩
  | mock m => exact ⟨_, rfl, rfl, rfl⟩

/-- Claim C6: for every published coin-detection event, each registered
callback is invoked exactly once and in registration order — the
invocation log is exactly the callback list mapped to the payload,
whatever the `raises` flags of the callbacks — and the event is still
pushed onto the outbound queue even when callbacks raise. -/
theorem c6_callbacks_once_in_order_isolated
    (st : CoinCounter) (line : RawLine) (m : Msg) (nowIso : String)
    (hp : parse_serial_data line = some m)
    (hv : validate_hardware_message m = true)
    (ht : m.type? = some "coin_detected") :
    (st.process_data line nowIso).2 =
      st.callbacks.map (fun c =>
        (c.id,
          { type := "coin_detected"
            denomination := (pyFloat (m.denomination?.getD PyVal.nonNum)).getD 0
            timestamp := m.timestamp?.getD nowIso
            session_id := st.current_session_id })) ∧
    (st.process_data line nowIso).1.data_queue = st.data_queue ++ [m] := by
  simp [CoinCounter.process_data, hp, hv, ht,
    CoinCounter.handle_coin_detection, notifyCallbacks_eq_map]

/-- Witness for `c6_callbacks_once_in_order_isolated` with three
callbacks, the middle one raising. -/
theorem c6_callbacks_once_in_order_isolated_witness :
    parse_serial_data coinLine1 = some coinMsg1 ∧
    validate_hardware_message coinMsg1 = true ∧
    coinMsg1.type? = some "coin_detected" ∧
    (cbCounter.process_data coinLine1 "t").2 =
      cbCounter.callbacks.map (fun c =>
        (c.id,
          { type := "coin_detected"
            denomination := (pyFloat (coinMsg1.denomination?.getD PyVal.nonNum)).getD 0
            timestamp := coinMsg1.timestamp?.getD "t"
            session_id := cbCounter.current_session_id })) :=
  ⟨by decide, by decide, by decide,
    (c6_callbacks_once_in_order_isolated cbCounter coinLine1 coinMsg1 "t"
      (by decide) (by decide) (by decide)).1⟩

/-- Claim C7: with the connection state disconnected, `start_session`
returns false and the whole orchestrator state — session stats and
stored handle included — is unchanged. -/
theorem c7_start_session_disconnected_noop
    (st : CoinCounter) (sid : String) (now : ℚ)
    (h : st.is_connected = false) :
    st.start_session sid now = (false, st) := by
  simp [CoinCounter.start_session, h]

/-- Witness for `c7_start_session_disconnected_noop` at a concrete
disconnected orchestrator. -/
theorem c7_start_session_disconnected_noop_witness :
    discCounter.is_connected = false ∧
    discCounter.start_session "s" 0 = (false, discCounter) :=
  ⟨rfl, c7_start_session_disconnected_noop discCounter "s" 0 rfl⟩

/-- Claim C8: on a connected orchestrator, `start_session` returns true,
zeroes the coin counter and the speed, stamps the session start time,
stores the handle, and leaves the `errors` and `warnings` counters and
both connection flags unchanged. -/
theorem c8_start_session_connected_resets_and_frames
    (st : CoinCounter) (sid : String) (now : ℚ)
    (h : st.is_connected = true) :
    (st.start_session sid now).1 = true ∧
    (st.start_session sid now).2.stats.total_coins_processed = 0 ∧
    (st.start_session sid now).2.stats.processing_speed = 0 ∧
    (st.start_session sid now).2.stats.session_start_time = some now ∧
    (st.start_session sid now).2.current_session_id = some sid ∧
    (st.start_session sid now).2.stats.errors = st.stats.errors ∧
    (st.start_session sid now).2.stats.warnings = st.stats.warnings ∧
    (st.start_session sid now).2.is_connected = st.is_connected ∧
    (st.start_session sid now).2.is_running = st.is_running := by
  simp [CoinCounter.start_session, h]

/-- Witness for `c8_start_session_connected_resets_and_frames` at a
concrete connected orchestrator. -/
theorem c8_start_session_connected_resets_and_frames_witness :
    initCounter.is_connected = true ∧
    (initCounter.start_session "s" 0).1 = true ∧
    (initCounter.start_session "s" 0).2.stats.session_start_time = some 0 :=
  ⟨rfl, (c8_start_session_connected_resets_and_frames initCounter "s" 0 rfl).1,
    (c8_start_session_connected_resets_and_frames initCounter "s" 0 rfl).2.2.2.1⟩

/-- Claim C9: on a connected simulated transport with an empty internal
queue, `simulate_batch [1.00, 5.00, 10.00]` with count 1 enqueues
exactly 3 coin-detected events, one per injected denomination and in the
injected order, which successive `read_data` calls return in that order
(a fourth read returns none), and bumps `coins_simulated` by 3. -/
theorem c9_simulate_batch_three_coins
    (m0 : MockHardware) (ts : String)
    (hc : m0.is_connected = true) (hq : m0.data_queue = []) :
    (m0.simulate_batch [1, 5, 10] 1 ts).coins_simulated
        = m0.coins_simulated + 3 ∧
    (m0.simulate_batch [1, 5, 10] 1 ts).data_queue
        = [batchCoinMsg 1 ts, batchCoinMsg 5 ts, batchCoinMsg 10 ts] ∧
    (m0.simulate_batch [1, 5, 10] 1 ts).read_data.1 = some (batchCoinMsg 1 ts) ∧
    ((m0.simulate_batch [1, 5, 10] 1 ts).read_data.2).read_data.1
        = some (batchCoinMsg 5 ts) ∧
    (((m0.simulate_batch [1, 5, 10] 1 ts).read_data.2).read_data.2).read_data.1
        = some (batchCoinMsg 10 ts) ∧
    ((((m0.simulate_batch [1, 5, 10] 1 ts).read_data.2).read_data.2).read_data.2).read_data.1
        = none := by
  rcases m0 with ⟨conn, run, q, se, cs, es, js⟩
  obtain rfl : conn = true := hc
  obtain rfl : q = [] := hq
  exact ⟨rfl, rfl, rfl, rfl, rfl, rfl⟩

/-- Witness for `c9_simulate_batch_three_coins` at a concrete connected
empty-queue mock. -/
theorem c9_simulate_batch_three_coins_witness :
    mock0.is_connected = true ∧ mock0.data_queue = [] ∧
    (mock0.simulate_batch [1, 5, 10] 1 "t").coins_simulated
        = mock0.coins_simulated + 3 :=
  ⟨rfl, rfl, (c9_simulate_batch_three_coins mock0 "t" rfl rfl).1⟩

/-- Claim C10: every message the data-processing step leaves on the
outbound queue either was already there or has a `type` equal to `coin`
or `coin_detected` and a denomination whose numeric coercion is a
supported value — so no `error`, `jam_detected` or `status_response`
message is ever enqueued. -/
theorem c10_enqueued_events_are_validated_coins
    (st : CoinCounter) (line : RawLine) (nowIso : String) (m : Msg)
    (hm : m ∈ (st.process_data line nowIso).1.data_queue) :
    m ∈ st.data_queue ∨
      ((m.type? = some "coin" ∨ m.type? = some "coin_detected") ∧
       ∃ q, pyFloat (m.denomination?.getD PyVal.nonNum) = some q ∧
         q ∈ PHILIPPINE_COINS) := by
  cases hp : parse_serial_data line with
  | none =>
    rw [show (st.process_data line nowIso).1.data_queue = st.data_queue by
      simp [CoinCounter.process_data, hp]] at hm
    exact Or.inl hm
  | some m0 =>
    cases hv : validate_hardware_message m0 with
    | false =>
      rw [show (st.process_data line nowIso).1.data_queue = st.data_queue by
        simp [CoinCounter.process_data, hp, hv]] at hm
      exact Or.inl hm
    | true =>
      have hq : (st.process_data line nowIso).1.data_queue
          = st.data_queue ++ [m0] := by
        by_cases ht : m0.type? = some "coin_detected"
        · simp [CoinCounter.process_data, hp, hv, ht,
            CoinCounter.handle_coin_detection]
        · simp [CoinCounter.process_data, hp, hv, ht]
      rw [hq] at hm
      rcases List.mem_append.mp hm with h | h
      · exact Or.inl h
      · have hm0 : m = m0 := by simpa using h
        subst hm0
        exact Or.inr (validate_hardware_message_spec m hv)

/-- Witness for `c10_enqueued_events_are_validated_coins`: the message
just enqueued from a concrete accepted coin line satisfies the
invariant. -/
theorem c10_enqueued_events_are_validated_coins_witness :
    coinMsg1 ∈ (initCounter.process_data coinLine1 "t").1.data_queue ∧
    (coinMsg1 ∈ initCounter.data_queue ∨
      ((coinMsg1.type? = some "coin" ∨ coinMsg1.type? = some "coin_detected") ∧
       ∃ q, pyFloat (coinMsg1.denomination?.getD PyVal.nonNum) = some q ∧
         q ∈ PHILIPPINE_COINS)) :=
  ⟨by decide,
    c10_enqueued_events_are_validated_coins initCounter coinLine1 "t" coinMsg1
      (by decide)⟩

end BarCoin
